import Mathlib

/-!
Verification of the city-comparison web application (`src/api/index.py`).

The application is a small Flask CRUD app over three relational tables
(User, City, Comparison).  We shallowly embed the persistent store as
lists of records plus autoincrement counters, and each request handler
as a pure function from the store (and the request data) to the new
store together with the user-visible outcome (flash message, redirect,
session assignment).  Database exceptions that the Python code does not
catch (e.g. an `IntegrityError` raised by the store's uniqueness
constraint, or a `TypeError` from slicing a missing form value) are
modelled as `Except.error`: an `Except.error` result is an unhandled
exception, i.e. the request crashes with no user-visible message and no
committed mutation.
-/

/-- A row of the `user` table (`class User` in `src/api/index.py`). -/
structure User where
  id : Nat
  username : String
  ip_address : String
  is_admin_approved : Bool
  created_at : Nat
deriving DecidableEq, Repr

/-- A row of the `city` table (`class City`). -/
structure City where
  id : Nat
  name : String
  country : String
  population : Nat
deriving DecidableEq, Repr

/-- A row of the `comparison` table (`class Comparison`).  The table
carries a uniqueness constraint on `(user_id, city_us_id, city_tr_id)`. -/
structure Comparison where
  id : Nat
  user_id : Nat
  city_us_id : Nat
  city_tr_id : Nat
  sim1 : String
  sim2 : String
  sim3 : String
  sim4 : String
  sim5 : String
  created_at : Nat
deriving DecidableEq, Repr

/-- The persistent store: the three tables plus the autoincrement
counters for the primary keys. -/
structure DB where
  users : List User
  cities : List City
  comparisons : List Comparison
  nextUserId : Nat
  nextCityId : Nat
  nextCompId : Nat
deriving DecidableEq, Repr

/-- The empty store (fresh schema, no rows). -/
def DB.empty : DB :=
  { users := [], cities := [], comparisons := [],
    nextUserId := 1, nextCityId := 1, nextCompId := 1 }

/-- Number of stored comparisons authored by a user
(`Comparison.query.filter_by(user_id=...).count()`). -/
def DB.contribCount (db : DB) (userId : Nat) : Nat :=
  (db.comparisons.filter (fun c => c.user_id == userId)).length

/-- Number of stored comparisons with the given
`(user_id, city_us_id, city_tr_id)` triple. -/
def DB.tripleCount (db : DB) (userId usId trId : Nat) : Nat :=
  (db.comparisons.filter
    (fun c => c.user_id == userId && c.city_us_id == usId && c.city_tr_id == trId)).length

/-- The invariant the store's `unique_user_city_pair` constraint
maintains: at most one stored comparison per
`(user_id, city_us_id, city_tr_id)` triple. -/
def DB.tripleUnique (db : DB) : Prop :=
  ∀ userId usId trId : Nat, db.tripleCount userId usId trId ≤ 1

/-- The primary keys of the `user` table are pairwise distinct. -/
def DB.userIdsUnique (db : DB) : Prop :=
  db.users.Pairwise (fun a b => a.id ≠ b.id)

/-- The primary keys of the `comparison` table are pairwise distinct. -/
def DB.compIdsUnique (db : DB) : Prop :=
  db.comparisons.Pairwise (fun a b => a.id ≠ b.id)

/-- The autoincrement counter for users is fresh: no stored user
already carries an id the counter will hand out. -/
def DB.userIdFresh (db : DB) : Prop :=
  ∀ u ∈ db.users, u.id < db.nextUserId

/-- The foreign-key integrity the store enforces on
`Comparison.user_id`: every comparison's author is a stored user. -/
def DB.authorsExist (db : DB) : Prop :=
  ∀ c ∈ db.comparisons, ∃ u ∈ db.users, u.id = c.user_id

/-- Models Python's `str.strip()` (no argument): drop whitespace
characters from both ends of the string. -/
def pyStrip (s : String) : String :=
  ⟨((s.data.dropWhile Char.isWhitespace).reverse.dropWhile Char.isWhitespace).reverse⟩

/-- Outcome of the login handler (route `/`, POST branch). -/
structure LoginResult where
  db : DB
  flash : Option String
  sessionUserId : Option Nat
  redirect : String
deriving DecidableEq, Repr

/-- The login handler (`def login()` in `src/api/index.py`, POST
branch).  `usernameRaw` is the submitted form field, `ip` the caller
address the handler records (forwarded-for header preferred over the
remote address — resolved by the caller of this model), `now` the
current time used for `created_at`. -/
def login (db : DB) (usernameRaw : String) (ip : String) (now : Nat) : LoginResult :=
  let username := pyStrip usernameRaw
  if username = "" then
    { db := db, flash := some "Username required",
      sessionUserId := none, redirect := "login" }
  else
    match db.users.find? (fun u => u.username == username) with
    | none =>
        let u : User :=
          { id := db.nextUserId, username := username, ip_address := ip,
            is_admin_approved := false, created_at := now }
        { db := { db with users := db.users ++ [u], nextUserId := db.nextUserId + 1 },
          flash := none, sessionUserId := some u.id, redirect := "dashboard" }
    | some u =>
        let users := db.users.map (fun v => if v.id == u.id then { u with ip_address := ip } else v)
        { db := { db with users := users },
          flash := none, sessionUserId := some u.id, redirect := "dashboard" }

/-- The `add` branch of the dashboard form: a US city id, a TR city id
and the five similarity fields.  `request.form.get` returns the field
when present and `None` when absent, hence `Option String`. -/
structure AddForm where
  us_city : Nat
  tr_city : Nat
  sim1 : Option String
  sim2 : Option String
  sim3 : Option String
  sim4 : Option String
  sim5 : Option String
deriving DecidableEq, Repr

/-- Models the Python expression `value[:20]` on the result of
`request.form.get`: truncates a present field to 20 characters and
raises (`TypeError: NoneType is not subscriptable`) on a missing one. -/
def sliceTrunc : Option String → Except Unit String
  | none => .error ()
  | some s => .ok (s.take 20)

/-- The store inserting a comparison row: the uniqueness constraint
`unique_user_city_pair` on `(user_id, city_us_id, city_tr_id)` makes the
commit raise an `IntegrityError` when a row with the same triple is
already present. -/
def insertComparison (db : DB) (c : Comparison) : Except Unit DB :=
  if db.comparisons.any (fun c0 =>
      c0.user_id == c.user_id && c0.city_us_id == c.city_us_id && c0.city_tr_id == c.city_tr_id)
  then .error ()
  else .ok { db with comparisons := db.comparisons ++ [c], nextCompId := db.nextCompId + 1 }

/-- The `add` branch of `def dashboard()`, with the store state it reads
split from the store state it writes: the duplicate pre-check
(`Comparison.query.filter_by(...).first()`) runs against `snapshot`,
while the insert commits against `current`.  A sequential request has
`snapshot = current` (see `dashboardAdd`); a request racing another
writer can see `current` already holding the triple its pre-check did
not find in `snapshot`.  The handler wraps nothing in a `try`, so a
store error propagates (`Except.error`). -/
def dashboardAddRaced (snapshot current : DB) (userId : Nat) (form : AddForm) (now : Nat) :
    Except Unit (DB × Option String) :=
  match sliceTrunc form.sim1, sliceTrunc form.sim2, sliceTrunc form.sim3,
      sliceTrunc form.sim4, sliceTrunc form.sim5 with
  | .ok s1, .ok s2, .ok s3, .ok s4, .ok s5 =>
      (match snapshot.comparisons.find? (fun c =>
          c.user_id == userId && c.city_us_id == form.us_city && c.city_tr_id == form.tr_city) with
      | some _ => .ok (current, some "Comparison already exists.")
      | none =>
          let newComp : Comparison :=
            { id := current.nextCompId, user_id := userId,
              city_us_id := form.us_city, city_tr_id := form.tr_city,
              sim1 := s1, sim2 := s2, sim3 := s3, sim4 := s4, sim5 := s5, created_at := now }
          match insertComparison current newComp with
          | .error e => .error e
          | .ok db1 => .ok (db1, some "Added successfully!"))
  | _, _, _, _, _ => .error ()

/-- The `add` branch of `def dashboard()` for a sequential request: the
pre-check and the insert see the same store state. -/
def dashboardAdd (db : DB) (userId : Nat) (form : AddForm) (now : Nat) :
    Except Unit (DB × Option String) :=
  dashboardAddRaced db db userId form now

/-- The `edit` branch of `def dashboard()`: load the comparison by id,
and only when it exists and its owner is the session user, overwrite the
five similarity fields (each form value sliced to 20 characters) and
commit; otherwise fall through silently. -/
def dashboardEdit (db : DB) (userId : Nat) (compId : Nat)
    (sim1 sim2 sim3 sim4 sim5 : Option String) : Except Unit (DB × Option String) :=
  match db.comparisons.find? (fun c => c.id == compId) with
  | some comp =>
      if comp.user_id == userId then
        match sliceTrunc sim1, sliceTrunc sim2, sliceTrunc sim3,
            sliceTrunc sim4, sliceTrunc sim5 with
        | .ok s1, .ok s2, .ok s3, .ok s4, .ok s5 =>
            let comp1 : Comparison :=
              { comp with sim1 := s1, sim2 := s2, sim3 := s3, sim4 := s4, sim5 := s5 }
            let comparisons := db.comparisons.map (fun c => if c.id == compId then comp1 else c)
            .ok ({ db with comparisons := comparisons }, some "Updated.")
        | _, _, _, _, _ => .error ()
      else .ok (db, none)
  | none => .ok (db, none)

/-- The `delete` branch of `def dashboard()`: load the comparison by id,
and only when it exists and its owner is the session user, delete the
row and commit; otherwise fall through silently. -/
def dashboardDelete (db : DB) (userId : Nat) (compId : Nat) : DB × Option String :=
  match db.comparisons.find? (fun c => c.id == compId) with
  | some comp =>
      if comp.user_id == userId then
        ({ db with comparisons := db.comparisons.filter (fun c => !(c.id == compId)) },
         some "Deleted.")
      else (db, none)
  | none => (db, none)

/-- Outcome of the `/list` handler. -/
structure ListResult where
  redirect : Option String
  flash : Option String
  comparisons : List (Comparison × String)
deriving DecidableEq, Repr

/-- The username of a comparison's author, via the inner join
`query.join(User).add_columns(User.username)`. -/
def authorUsername (db : DB) (c : Comparison) : Option String :=
  (db.users.find? (fun u => u.id == c.user_id)).map User.username

/-- The query built by `/list`: start from `Comparison.query` and apply
each of the two optional city filters when its parameter is truthy
(`if filter_us: query = query.filter(...)`, likewise `filter_tr`). -/
def listFilter (db : DB) (filter_us filter_tr : Option Nat) : List Comparison :=
  let q : List Comparison := db.comparisons
  let q : List Comparison := match filter_us with
    | some usId => q.filter (fun c => c.city_us_id == usId)
    | none => q
  match filter_tr with
  | some trId => q.filter (fun c => c.city_tr_id == trId)
  | none => q

/-- The `/list` handler (`def list_view()`), for a caller already
authenticated as `user`.  `filter_us` and `filter_tr` are the query
parameters, `none` standing for an absent or falsy value (the code
guards each filter with Python truthiness, `if filter_us:`). -/
def list_view (db : DB) (user : User) (filter_us filter_tr : Option Nat) : ListResult :=
  let user_contrib_count := db.contribCount user.id
  if user_contrib_count < 10 && !user.is_admin_approved then
    { redirect := some "dashboard",
      flash := some ("Access Denied. Need 10 contributions. You have "
        ++ toString user_contrib_count ++ "."),
      comparisons := [] }
  else
    { redirect := none, flash := none,
      comparisons := (listFilter db filter_us filter_tr).filterMap
        (fun c => (authorUsername db c).map (fun n => (c, n))) }

/-- The fixed US city names seeded by `/setup_db`. -/
def setup_db_us_names : List String :=
  ["New York", "Los Angeles", "Chicago", "Houston", "Phoenix", "Philadelphia",
   "San Antonio", "San Diego", "Dallas", "San Jose", "Austin", "Jacksonville",
   "Fort Worth", "Columbus", "Charlotte", "San Francisco", "Indianapolis",
   "Seattle", "Denver", "Washington", "Boston", "El Paso", "Nashville",
   "Detroit", "Oklahoma City", "Portland", "Las Vegas", "Memphis",
   "Louisville", "Baltimore", "Milwaukee", "Albuquerque", "Tucson", "Fresno",
   "Mesa", "Sacramento", "Atlanta", "Kansas City", "Colorado Springs",
   "Miami", "Raleigh", "Omaha", "Long Beach", "Virginia Beach", "Oakland",
   "Minneapolis", "Tulsa", "Arlington", "Tampa", "New Orleans"]

/-- The fixed Turkish city names seeded by `/setup_db`. -/
def setup_db_tr_names : List String :=
  ["Istanbul", "Ankara", "Izmir", "Bursa", "Adana", "Gaziantep", "Konya",
   "Antalya", "Kayseri", "Mersin", "Eskisehir", "Diyarbakir", "Samsun",
   "Denizli", "Sanliurfa", "Malatya", "Kahramanmaras", "Erzurum", "Van",
   "Batman", "Elazig", "Izmit", "Manisa", "Sivas", "Gebze", "Balikesir",
   "Tarsus", "Trabzon", "Kutahya", "Corum", "Isparta", "Osmaniye",
   "Kirikkale", "Antakya", "Aydin", "Iskenderun", "Usak", "Aksaray",
   "Afyon", "Edirne"]

/-- Seed rows for one country: `City(name=name, country=..., population=100000)`
for each name, ids handed out by the autoincrement counter from `startId`. -/
def seedCities (startId : Nat) (country : String) (names : List String) : List City :=
  names.enum.map (fun p =>
    { id := startId + p.fst, name := p.snd, country := country, population := 100000 })

/-- The `/setup_db` handler (`def setup_db()`): create the schema, and
when the City table holds no row (`not City.query.first()`), seed the
fixed US and Turkish city lists; otherwise report the database already
exists. -/
def setup_db (db : DB) : DB × String :=
  if db.cities = [] then
    let us := seedCities db.nextCityId "USA" setup_db_us_names
    let tr := seedCities (db.nextCityId + setup_db_us_names.length) "Turkiye" setup_db_tr_names
    let db1 : DB :=
      { db with
        cities := db.cities ++ us ++ tr,
        nextCityId := db.nextCityId + setup_db_us_names.length + setup_db_tr_names.length }
    (db1, "Database initialized and seeded!")
  else (db, "Database already exists.")

/-! ## Generic list lemmas used by the handler proofs -/

/-- In a list whose keys are pairwise distinct, two members with the
same key are the same element. -/
theorem pairwise_key_inj {α β : Type} {key : α → β} {l : List α}
    (h : l.Pairwise (fun a b => key a ≠ key b)) :
    ∀ a ∈ l, ∀ b ∈ l, key a = key b → a = b := by
  induction l with
  | nil => intro a ha; cases ha
  | cons x t ih =>
      rcases List.pairwise_cons.mp h with ⟨hx, ht⟩
      intro a ha b hb hk
      rcases List.mem_cons.mp ha with rfl | ha₁ <;> rcases List.mem_cons.mp hb with rfl | hb₁
      · rfl
      · exact absurd hk (hx b hb₁)
      · exact absurd hk.symm (hx a ha₁)
      · exact ih ht a ha₁ b hb₁ hk

/-- Looking a member up by its own key succeeds and returns exactly that
member when keys are pairwise distinct. -/
theorem find?_key_of_mem {α : Type} {key : α → Nat} {l : List α} {a : α}
    (hmem : a ∈ l) (hu : l.Pairwise (fun x y => key x ≠ key y)) :
    l.find? (fun x => key x == key a) = some a := by
  induction l with
  | nil => cases hmem
  | cons x t ih =>
      rcases List.pairwise_cons.mp hu with ⟨hx, ht⟩
      rcases List.mem_cons.mp hmem with rfl | hmem₁
      · simp [List.find?_cons]
      · have hne : key x ≠ key a := hx a hmem₁
        rw [List.find?_cons]
        have : (key x == key a) = false := by simpa using hne
        rw [this]
        exact ih hmem₁ ht

/-- `find?` commutes with a map that does not disturb the predicate on
the list's elements. -/
theorem find?_map_pres {α : Type} {l : List α} {f : α → α} {p : α → Bool} {a : α}
    (hfind : l.find? p = some a) (hp : ∀ x ∈ l, p (f x) = p x) :
    (l.map f).find? p = some (f a) := by
  induction l with
  | nil => cases hfind
  | cons x t ih =>
      rw [List.find?_cons] at hfind
      rw [List.map_cons, List.find?_cons, hp x (List.mem_cons_self x t)]
      by_cases hx : p x = true
      · rw [hx] at hfind ⊢
        simp only [Option.some.injEq] at hfind ⊢
        exact congrArg f hfind
      · have hx' : p x = false := by simpa using hx
        rw [hx'] at hfind ⊢
        exact ih hfind (fun y hy => hp y (List.mem_cons_of_mem x hy))

/-- Projecting the row back out of an inner join that never drops a row
gives back the joined list. -/
theorem filterMap_pair_fst {α β : Type} {l : List α} {g : α → Option β}
    (h : ∀ c ∈ l, (g c).isSome) :
    (l.filterMap (fun c => (g c).map (fun n => (c, n)))).map Prod.fst = l := by
  induction l with
  | nil => rfl
  | cons a t ih =>
      obtain ⟨n, hn⟩ := Option.isSome_iff_exists.mp (h a (List.mem_cons_self a t))
      simp only [List.filterMap_cons, hn, Option.map_some', List.map_cons]
      exact congrArg (a :: ·) (ih (fun c hc => h c (List.mem_cons_of_mem a hc)))

/-- A predicate filtering nothing out of a list holds on no element. -/
theorem eq_false_of_filter_length_zero {α : Type} {l : List α} {p : α → Bool}
    (h : (l.filter p).length = 0) : ∀ a ∈ l, p a = false := by
  intro a ha
  have hnil : l.filter p = [] := List.length_eq_zero.mp h
  by_contra hpa
  have hmem : a ∈ l.filter p := List.mem_filter.mpr ⟨ha, by simpa using hpa⟩
  rw [hnil] at hmem
  cases hmem

/-- A filter keeping at least one element means `find?` succeeds. -/
theorem find?_isSome_of_filter_length_pos {α : Type} {l : List α} {p : α → Bool}
    (h : 0 < (l.filter p).length) : ∃ b, l.find? p = some b := by
  cases hf : l.find? p with
  | some b => exact ⟨b, rfl⟩
  | none =>
      rw [List.find?_eq_none] at hf
      have hnil : l.filter p = [] := by
        apply List.eq_nil_iff_forall_not_mem.mpr
        intro a hmem
        rcases List.mem_filter.mp hmem with ⟨hal, hpa⟩
        exact hf a hal hpa
      rw [hnil] at h
      cases h

/-! ## Claim theorems -/

/-- C8: for every submitted username whose whitespace-trimmed form is
empty, the login handler flashes "Username required" and redirects back
to the login form, creating no User record and establishing no
session. -/
theorem login_blank_username_rejected (db : DB) (u ip : String) (now : Nat)
    (h : pyStrip u = "") :
    login db u ip now =
      { db := db, flash := some "Username required",
        sessionUserId := none, redirect := "login" } := by
  simp [login, h]

/-- Witness for C8 at the concrete whitespace-only username `"  "`. -/
theorem login_blank_username_rejected_witness :
    pyStrip "  " = "" ∧
      login DB.empty "  " "9.9.9.9" 0 =
        { db := DB.empty, flash := some "Username required",
          sessionUserId := none, redirect := "login" } :=
  ⟨by decide, login_blank_username_rejected DB.empty "  " "9.9.9.9" 0 (by decide)⟩

/-- The City table is never empty after `/setup_db` runs. -/
theorem setup_db_cities_ne_nil (db : DB) : (setup_db db).1.cities ≠ [] := by
  by_cases hc : db.cities = []
  · intro h
    have hlen := congrArg List.length h
    simp [setup_db, hc, seedCities, setup_db_us_names, setup_db_tr_names] at hlen
  · intro h
    rw [setup_db, if_neg hc] at h
    exact hc h

/-- C6: `/setup_db` seeds the fixed US and Turkish city rows only when
the City table is empty and reports the database already exists
otherwise; calling it twice leaves the City rows of the first call
untouched, so no duplicate City rows ever appear. -/
theorem setup_db_idempotent (db : DB) :
    (db.cities = [] →
      (setup_db db).1.cities =
          seedCities db.nextCityId "USA" setup_db_us_names ++
            seedCities (db.nextCityId + setup_db_us_names.length) "Turkiye" setup_db_tr_names ∧
        (setup_db db).2 = "Database initialized and seeded!") ∧
    (db.cities ≠ [] → setup_db db = (db, "Database already exists.")) ∧
    setup_db (setup_db db).1 = ((setup_db db).1, "Database already exists.") := by
  refine ⟨fun hc => ?_, fun hc => ?_, ?_⟩
  · simp [setup_db, hc]
  · simp [setup_db, hc]
  · rw [setup_db]
    rw [if_neg (setup_db_cities_ne_nil db)]

/-- Witness for C6 on the empty store. -/
theorem setup_db_idempotent_witness :
    (setup_db DB.empty).2 = "Database initialized and seeded!" ∧
      setup_db (setup_db DB.empty).1 = ((setup_db DB.empty).1, "Database already exists.") :=
  ⟨((setup_db_idempotent DB.empty).1 rfl).2, (setup_db_idempotent DB.empty).2.2⟩

/-- C1: for a well-formed `add` submission (all five sim fields
present), when a Comparison for the (user, US city, TR city) triple
already exists the handler flashes "Comparison already exists.", stores
nothing, and exactly one record for the triple remains; when none
exists it creates exactly one. -/
theorem dashboard_add_duplicate_guard (db : DB) (userId us tr : Nat)
    (s1 s2 s3 s4 s5 : String) (now : Nat) (hinv : db.tripleUnique) :
    (0 < db.tripleCount userId us tr →
      dashboardAdd db userId
          { us_city := us, tr_city := tr, sim1 := some s1, sim2 := some s2,
            sim3 := some s3, sim4 := some s4, sim5 := some s5 } now
        = .ok (db, some "Comparison already exists.") ∧
      db.tripleCount userId us tr = 1) ∧
    (db.tripleCount userId us tr = 0 →
      ∃ db1 : DB,
        dashboardAdd db userId
            { us_city := us, tr_city := tr, sim1 := some s1, sim2 := some s2,
              sim3 := some s3, sim4 := some s4, sim5 := some s5 } now
          = .ok (db1, some "Added successfully!") ∧
        db1.tripleCount userId us tr = 1 ∧
        db1.comparisons.length = db.comparisons.length + 1) := by
  constructor
  · intro hpos
    obtain ⟨b, hb⟩ := find?_isSome_of_filter_length_pos hpos
    constructor
    · simp only [dashboardAdd, dashboardAddRaced, sliceTrunc, hb]
    · exact Nat.le_antisymm (hinv userId us tr) hpos
  · intro hzero
    have hall := eq_false_of_filter_length_zero hzero
    have hfind : db.comparisons.find? (fun c =>
        c.user_id == userId && c.city_us_id == us && c.city_tr_id == tr) = none :=
      List.find?_eq_none.mpr (fun a ha => by simp [hall a ha])
    have hany : (db.comparisons.any (fun c0 =>
        c0.user_id == userId && c0.city_us_id == us && c0.city_tr_id == tr)) = false :=
      List.any_eq_false.mpr (fun a ha => by simp [hall a ha])
    refine ⟨{ db with
                comparisons := db.comparisons ++
                  [{ id := db.nextCompId, user_id := userId, city_us_id := us,
                     city_tr_id := tr, sim1 := s1.take 20, sim2 := s2.take 20,
                     sim3 := s3.take 20, sim4 := s4.take 20, sim5 := s5.take 20,
                     created_at := now }],
                nextCompId := db.nextCompId + 1 }, ?_, ?_, by simp⟩
    · simp [dashboardAdd, dashboardAddRaced, sliceTrunc, hfind, insertComparison, hany]
    · show (List.filter _ (db.comparisons ++ _)).length = 1
      rw [List.filter_append]
      have hnil : db.comparisons.filter (fun c =>
          c.user_id == userId && c.city_us_id == us && c.city_tr_id == tr) = [] :=
        List.length_eq_zero.mp hzero
      rw [hnil]
      simp

/-- Witness for C1 on a store already holding the triple (1, 1, 2). -/
theorem dashboard_add_duplicate_guard_witness :
    ({ DB.empty with
        comparisons := [{ id := 1, user_id := 1, city_us_id := 1, city_tr_id := 2,
                          sim1 := "a", sim2 := "b", sim3 := "c", sim4 := "d", sim5 := "e",
                          created_at := 0 }],
        nextCompId := 2 } : DB).tripleUnique ∧
    dashboardAdd
        { DB.empty with
          comparisons := [{ id := 1, user_id := 1, city_us_id := 1, city_tr_id := 2,
                            sim1 := "a", sim2 := "b", sim3 := "c", sim4 := "d", sim5 := "e",
                            created_at := 0 }],
          nextCompId := 2 } 1
        { us_city := 1, tr_city := 2, sim1 := some "v", sim2 := some "w",
          sim3 := some "x", sim4 := some "y", sim5 := some "z" } 9
      = .ok ({ DB.empty with
                comparisons := [{ id := 1, user_id := 1, city_us_id := 1, city_tr_id := 2,
                                  sim1 := "a", sim2 := "b", sim3 := "c", sim4 := "d",
                                  sim5 := "e", created_at := 0 }],
                nextCompId := 2 }, some "Comparison already exists.") := by
  have htu : ({ DB.empty with
      comparisons := [{ id := 1, user_id := 1, city_us_id := 1, city_tr_id := 2,
                        sim1 := "a", sim2 := "b", sim3 := "c", sim4 := "d", sim5 := "e",
                        created_at := 0 }],
      nextCompId := 2 } : DB).tripleUnique := by
    intro userId usId trId
    simp only [DB.tripleCount, List.filter]
    split <;> simp
  exact ⟨htu,
    ((dashboard_add_duplicate_guard _ 1 1 2 "v" "w" "x" "y" "z" 9 htu).1 (by decide)).1⟩

/-- C9 counterexample: a concrete interleaving in which the pre-check
ran against a snapshot without the (1, 1, 2) triple while another
writer's comparison for the same triple is already committed; the
loser's insert trips the uniqueness constraint and, with no handler for
it, the request crashes instead of flashing "Comparison already
exists.". -/
theorem dashboard_add_race_loser_crashes_cex :
    dashboardAddRaced DB.empty
        { DB.empty with
          comparisons := [{ id := 1, user_id := 1, city_us_id := 1, city_tr_id := 2,
                            sim1 := "a", sim2 := "b", sim3 := "c", sim4 := "d", sim5 := "e",
                            created_at := 0 }],
          nextCompId := 2 } 1
        { us_city := 1, tr_city := 2, sim1 := some "v", sim2 := some "w",
          sim3 := some "x", sim4 := some "y", sim5 := some "z" } 3
      = .error () := by
  rfl

/-- C9 (amended): when a request's duplicate pre-check sees no record
for the triple but the store already holds one by insert time, the
uncaught uniqueness-constraint error crashes the losing request; the
"already exists" message is only flashed when the duplicate is visible
to the request's own pre-check. -/
theorem dashboard_add_race_loser_crashes (snapshot current : DB) (userId us tr : Nat)
    (s1 s2 s3 s4 s5 : String) (now : Nat)
    (h1 : snapshot.tripleCount userId us tr = 0)
    (h2 : 0 < current.tripleCount userId us tr) :
    dashboardAddRaced snapshot current userId
        { us_city := us, tr_city := tr, sim1 := some s1, sim2 := some s2,
          sim3 := some s3, sim4 := some s4, sim5 := some s5 } now
      = .error () := by
  have hall := eq_false_of_filter_length_zero h1
  have hfind : snapshot.comparisons.find? (fun c =>
      c.user_id == userId && c.city_us_id == us && c.city_tr_id == tr) = none :=
    List.find?_eq_none.mpr (fun a ha => by simp [hall a ha])
  obtain ⟨b, hb⟩ := find?_isSome_of_filter_length_pos h2
  have hbmem : b ∈ current.comparisons := List.mem_of_find?_eq_some hb
  have hbp := List.find?_some hb
  have hany : (current.comparisons.any (fun c0 =>
      c0.user_id == userId && c0.city_us_id == us && c0.city_tr_id == tr)) = true :=
    List.any_eq_true.mpr ⟨b, hbmem, hbp⟩
  simp [dashboardAddRaced, sliceTrunc, hfind, insertComparison, hany]

/-- Witness for the amended C9 at a concrete race. -/
theorem dashboard_add_race_loser_crashes_witness :
    DB.empty.tripleCount 1 1 2 = 0 ∧
    0 < ({ DB.empty with
           comparisons := [{ id := 1, user_id := 1, city_us_id := 1, city_tr_id := 2,
                             sim1 := "a", sim2 := "b", sim3 := "c", sim4 := "d", sim5 := "e",
                             created_at := 0 }],
           nextCompId := 2 } : DB).tripleCount 1 1 2 ∧
    dashboardAddRaced DB.empty
        { DB.empty with
          comparisons := [{ id := 1, user_id := 1, city_us_id := 1, city_tr_id := 2,
                            sim1 := "a", sim2 := "b", sim3 := "c", sim4 := "d", sim5 := "e",
                            created_at := 0 }],
          nextCompId := 2 } 1
        { us_city := 1, tr_city := 2, sim1 := some "p", sim2 := some "q",
          sim3 := some "r", sim4 := some "s", sim5 := some "t" } 4
      = .error () :=
  ⟨rfl, by decide,
    dashboard_add_race_loser_crashes DB.empty _ 1 1 2 "p" "q" "r" "s" "t" 4 rfl (by decide)⟩

/-- C10: an `add` submission in which one of the five sim fields is
absent makes the handler raise an unhandled exception — creating no
Comparison and showing no message — while the 20-character truncation
behaviour holds whenever all five fields are present. -/
theorem dashboard_add_missing_sim_crashes (db : DB) (userId us tr : Nat)
    (s2 s3 s4 s5 : String) (now : Nat) :
    dashboardAdd db userId
        { us_city := us, tr_city := tr, sim1 := none, sim2 := some s2,
          sim3 := some s3, sim4 := some s4, sim5 := some s5 } now = .error () ∧
    (∀ s1 : String, db.tripleCount userId us tr = 0 →
      ∃ db1 : DB,
        dashboardAdd db userId
            { us_city := us, tr_city := tr, sim1 := some s1, sim2 := some s2,
              sim3 := some s3, sim4 := some s4, sim5 := some s5 } now
          = .ok (db1, some "Added successfully!") ∧
        db1.comparisons = db.comparisons ++
          [{ id := db.nextCompId, user_id := userId, city_us_id := us, city_tr_id := tr,
             sim1 := s1.take 20, sim2 := s2.take 20, sim3 := s3.take 20,
             sim4 := s4.take 20, sim5 := s5.take 20, created_at := now }]) := by
  constructor
  · rfl
  · intro s1 hzero
    have hall := eq_false_of_filter_length_zero hzero
    have hfind : db.comparisons.find? (fun c =>
        c.user_id == userId && c.city_us_id == us && c.city_tr_id == tr) = none :=
      List.find?_eq_none.mpr (fun a ha => by simp [hall a ha])
    have hany : (db.comparisons.any (fun c0 =>
        c0.user_id == userId && c0.city_us_id == us && c0.city_tr_id == tr)) = false :=
      List.any_eq_false.mpr (fun a ha => by simp [hall a ha])
    refine ⟨{ db with
                comparisons := db.comparisons ++
                  [{ id := db.nextCompId, user_id := userId, city_us_id := us,
                     city_tr_id := tr, sim1 := s1.take 20, sim2 := s2.take 20,
                     sim3 := s3.take 20, sim4 := s4.take 20, sim5 := s5.take 20,
                     created_at := now }],
                nextCompId := db.nextCompId + 1 }, ?_, rfl⟩
    simp [dashboardAdd, dashboardAddRaced, sliceTrunc, hfind, insertComparison, hany]

/-- Witness for C10: the missing-field crash and the successful
truncating insert, both on the empty store. -/
theorem dashboard_add_missing_sim_crashes_witness :
    DB.empty.tripleCount 1 1 2 = 0 ∧
    dashboardAdd DB.empty 1
        { us_city := 1, tr_city := 2, sim1 := none, sim2 := some "b",
          sim3 := some "c", sim4 := some "d", sim5 := some "e" } 0 = .error () ∧
    (∃ db1 : DB,
      dashboardAdd DB.empty 1
          { us_city := 1, tr_city := 2, sim1 := some "aaaaaaaaaaaaaaaaaaaaaaaaa",
            sim2 := some "b", sim3 := some "c", sim4 := some "d", sim5 := some "e" } 0
        = .ok (db1, some "Added successfully!") ∧
      db1.comparisons = DB.empty.comparisons ++
        [{ id := DB.empty.nextCompId, user_id := 1, city_us_id := 1, city_tr_id := 2,
           sim1 := "aaaaaaaaaaaaaaaaaaaaaaaaa".take 20, sim2 := "b".take 20,
           sim3 := "c".take 20, sim4 := "d".take 20, sim5 := "e".take 20,
           created_at := 0 }]) :=
  ⟨rfl,
    (dashboard_add_missing_sim_crashes DB.empty 1 1 2 "b" "c" "d" "e" 0).1,
    (dashboard_add_missing_sim_crashes DB.empty 1 1 2 "b" "c" "d" "e" 0).2
      "aaaaaaaaaaaaaaaaaaaaaaaaa" rfl⟩

/-- Reduction of the `edit` branch when the comparison is found and
owned by the session user. -/
theorem dashboardEdit_found_owner {db : DB} {userId compId : Nat} {comp : Comparison}
    (hfind : db.comparisons.find? (fun c => c.id == compId) = some comp)
    (hown : (comp.user_id == userId) = true) (s1 s2 s3 s4 s5 : String) :
    dashboardEdit db userId compId (some s1) (some s2) (some s3) (some s4) (some s5) =
      .ok ({ db with
               comparisons := db.comparisons.map (fun c =>
                 if c.id == compId then
                   { comp with
                     sim1 := s1.take 20, sim2 := s2.take 20, sim3 := s3.take 20,
                     sim4 := s4.take 20, sim5 := s5.take 20 }
                 else c) },
           some "Updated.") := by
  simp [dashboardEdit, hfind, hown, sliceTrunc]

/-- A store fixture: one comparison, id 1, owned by user 2. -/
def foreignDb : DB :=
  { DB.empty with
    comparisons := [{ id := 1, user_id := 2, city_us_id := 1, city_tr_id := 2,
                      sim1 := "a", sim2 := "b", sim3 := "c", sim4 := "d", sim5 := "e",
                      created_at := 0 }],
    nextCompId := 2 }

/-- C3: an `edit` or `delete` submission against a comparison owned by
another user leaves the store unchanged and flashes nothing. -/
theorem dashboard_foreign_edit_delete_noop (db : DB) (userId : Nat) (comp : Comparison)
    (s1 s2 s3 s4 s5 : Option String)
    (hmem : comp ∈ db.comparisons) (hids : db.compIdsUnique)
    (hown : comp.user_id ≠ userId) :
    dashboardEdit db userId comp.id s1 s2 s3 s4 s5 = .ok (db, none) ∧
    dashboardDelete db userId comp.id = (db, none) := by
  have hfind : db.comparisons.find? (fun c => c.id == comp.id) = some comp :=
    find?_key_of_mem hmem hids
  have howb : (comp.user_id == userId) = false := by simpa using hown
  constructor
  · simp [dashboardEdit, hfind, howb]
  · simp [dashboardDelete, hfind, howb]

/-- Witness for C3: user 1 editing and deleting user 2's comparison. -/
theorem dashboard_foreign_edit_delete_noop_witness :
    dashboardEdit foreignDb 1 1 (some "x") none (some "y") none none
        = .ok (foreignDb, none) ∧
    dashboardDelete foreignDb 1 1 = (foreignDb, none) :=
  dashboard_foreign_edit_delete_noop foreignDb 1
    { id := 1, user_id := 2, city_us_id := 1, city_tr_id := 2,
      sim1 := "a", sim2 := "b", sim3 := "c", sim4 := "d", sim5 := "e", created_at := 0 }
    (some "x") none (some "y") none none
    (by simp [foreignDb]) (by simp [foreignDb, DB.compIdsUnique]) (by decide)

/-- C4: a successful `edit` by the owner rewrites only the five sim
fields (each truncated to 20 characters) of that one record; its id,
owner, city references and creation timestamp are untouched, every
other record is carried over unchanged, and the other tables are not
modified. -/
theorem dashboard_own_edit_updates_only_sims (db : DB) (userId : Nat) (comp : Comparison)
    (s1 s2 s3 s4 s5 : String)
    (hmem : comp ∈ db.comparisons) (hids : db.compIdsUnique)
    (hown : comp.user_id = userId) :
    ∃ comp1 : Comparison,
      dashboardEdit db userId comp.id (some s1) (some s2) (some s3) (some s4) (some s5)
        = .ok ({ db with
                   comparisons := db.comparisons.map
                     (fun c => if c.id == comp.id then comp1 else c) },
               some "Updated.") ∧
      comp1.sim1 = s1.take 20 ∧ comp1.sim2 = s2.take 20 ∧ comp1.sim3 = s3.take 20 ∧
      comp1.sim4 = s4.take 20 ∧ comp1.sim5 = s5.take 20 ∧
      comp1.id = comp.id ∧ comp1.user_id = comp.user_id ∧
      comp1.city_us_id = comp.city_us_id ∧ comp1.city_tr_id = comp.city_tr_id ∧
      comp1.created_at = comp.created_at ∧
      (∀ c ∈ db.comparisons, c.id ≠ comp.id →
        c ∈ db.comparisons.map (fun c2 => if c2.id == comp.id then comp1 else c2)) := by
  have hfind : db.comparisons.find? (fun c => c.id == comp.id) = some comp :=
    find?_key_of_mem hmem hids
  have howb : (comp.user_id == userId) = true := by simpa using hown
  refine ⟨_, dashboardEdit_found_owner hfind howb s1 s2 s3 s4 s5,
    ?_, ?_, ?_, ?_, ?_, ?_, ?_, ?_, ?_, ?_, ?_⟩
  · simp
  · simp
  · simp
  · simp
  · simp
  · simp
  · simp
  · simp
  · simp
  · simp
  · intro c hc hne
    refine List.mem_map.mpr ⟨c, hc, ?_⟩
    simp [hne]

/-- A store fixture: one comparison, id 1, owned by user 1. -/
def ownDb : DB :=
  { DB.empty with
    comparisons := [{ id := 1, user_id := 1, city_us_id := 1, city_tr_id := 2,
                      sim1 := "a", sim2 := "b", sim3 := "c", sim4 := "d", sim5 := "e",
                      created_at := 0 }],
    nextCompId := 2 }

/-- Witness for C4: user 1 editing their own comparison. -/
theorem dashboard_own_edit_updates_only_sims_witness :
    ∃ comp1 : Comparison,
      dashboardEdit ownDb 1 1 (some "p") (some "q") (some "r") (some "s") (some "t")
        = .ok ({ ownDb with
                   comparisons := ownDb.comparisons.map
                     (fun c => if c.id == 1 then comp1 else c) },
               some "Updated.") ∧
      comp1.sim1 = "p".take 20 ∧ comp1.sim2 = "q".take 20 ∧ comp1.sim3 = "r".take 20 ∧
      comp1.sim4 = "s".take 20 ∧ comp1.sim5 = "t".take 20 ∧
      comp1.id = 1 ∧ comp1.user_id = 1 ∧
      comp1.city_us_id = 1 ∧ comp1.city_tr_id = 2 ∧
      comp1.created_at = 0 ∧
      (∀ c ∈ ownDb.comparisons, c.id ≠ 1 →
        c ∈ ownDb.comparisons.map (fun c2 => if c2.id == 1 then comp1 else c2)) :=
  dashboard_own_edit_updates_only_sims ownDb 1
    { id := 1, user_id := 1, city_us_id := 1, city_tr_id := 2,
      sim1 := "a", sim2 := "b", sim3 := "c", sim4 := "d", sim5 := "e", created_at := 0 }
    "p" "q" "r" "s" "t"
    (by simp [ownDb]) (by simp [ownDb, DB.compIdsUnique]) rfl

/-- Under foreign-key integrity, the `/list` join finds a username for
every comparison. -/
theorem authorUsername_isSome {db : DB} (hfk : db.authorsExist)
    {c : Comparison} (hc : c ∈ db.comparisons) : (authorUsername db c).isSome := by
  obtain ⟨u, hu, hid⟩ := hfk c hc
  have hs : (db.users.find? (fun v => v.id == c.user_id)).isSome := by
    rw [List.find?_isSome]
    exact ⟨u, hu, by simp [hid]⟩
  simpa [authorUsername] using hs

/-- Whatever the filter parameters, `/list` only selects stored
comparisons. -/
theorem listFilter_subset {db : DB} {fus ftr : Option Nat} {c : Comparison}
    (hc : c ∈ listFilter db fus ftr) : c ∈ db.comparisons := by
  rcases fus with _ | usId <;> rcases ftr with _ | trId <;>
    simp only [listFilter] at hc
  · exact hc
  · exact (List.mem_filter.mp hc).1
  · exact (List.mem_filter.mp hc).1
  · exact (List.mem_filter.mp (List.mem_filter.mp hc).1).1

/-- The access-gate condition of `/list` as a Boolean, false exactly
when the caller is granted access. -/
theorem gate_cond_false {db : DB} {user : User}
    (h : ¬(db.contribCount user.id < 10 ∧ user.is_admin_approved = false)) :
    (decide (db.contribCount user.id < 10) && !user.is_admin_approved) = false := by
  by_cases hlt : db.contribCount user.id < 10
  · rcases Bool.eq_false_or_eq_true user.is_admin_approved with ha | ha
    · simp [ha]
    · exact absurd ⟨hlt, ha⟩ h
  · simp [hlt]

/-- `/list` outcome when access is granted. -/
theorem list_view_granted_form (db : DB) (user : User) (fus ftr : Option Nat)
    (h : ¬(db.contribCount user.id < 10 ∧ user.is_admin_approved = false)) :
    list_view db user fus ftr =
      { redirect := none, flash := none,
        comparisons := (listFilter db fus ftr).filterMap
          (fun c => (authorUsername db c).map (fun n => (c, n))) } := by
  rw [list_view]
  simp only [gate_cond_false h, Bool.false_eq_true, if_false]

/-- `/list` outcome when access is denied. -/
theorem list_view_denied_form (db : DB) (user : User) (fus ftr : Option Nat)
    (h : db.contribCount user.id < 10 ∧ user.is_admin_approved = false) :
    list_view db user fus ftr =
      { redirect := some "dashboard",
        flash := some ("Access Denied. Need 10 contributions. You have "
          ++ toString (db.contribCount user.id) ++ "."),
        comparisons := [] } := by
  simp [list_view, h.1, h.2]

/-- C2: `/list` denies access — redirecting to the dashboard with a
message reporting the shortfall — exactly when the caller's comparison
count is below 10 and they are not admin-approved; a granted caller
without filters receives every stored Comparison together with its
author's username. -/
theorem list_view_access_gate (db : DB) (user : User) (fus ftr : Option Nat)
    (hfk : db.authorsExist) :
    ((list_view db user fus ftr).redirect = some "dashboard" ↔
      db.contribCount user.id < 10 ∧ user.is_admin_approved = false) ∧
    (db.contribCount user.id < 10 ∧ user.is_admin_approved = false →
      (list_view db user fus ftr).flash =
        some ("Access Denied. Need 10 contributions. You have "
          ++ toString (db.contribCount user.id) ++ ".") ∧
      (list_view db user fus ftr).comparisons = []) ∧
    (¬(db.contribCount user.id < 10 ∧ user.is_admin_approved = false) →
      (list_view db user none none).comparisons.map Prod.fst = db.comparisons ∧
      ∀ p ∈ (list_view db user none none).comparisons, authorUsername db p.1 = some p.2) := by
  refine ⟨?_, fun h => ?_, fun h => ?_⟩
  · by_cases h : db.contribCount user.id < 10 ∧ user.is_admin_approved = false
    · rw [list_view_denied_form db user fus ftr h]
      simpa using h
    · rw [list_view_granted_form db user fus ftr h]
      simpa using h
  · rw [list_view_denied_form db user fus ftr h]
    exact ⟨rfl, rfl⟩
  · rw [list_view_granted_form db user none none h]
    constructor
    · exact filterMap_pair_fst (fun c hc => authorUsername_isSome hfk (listFilter_subset hc))
    · intro p hp
      simp only [List.mem_filterMap] at hp
      obtain ⟨a, ha, hmap⟩ := hp
      rcases Option.map_eq_some'.mp hmap with ⟨n, hn, hpn⟩
      rw [← hpn]
      exact hn

/-- A user with nine stored comparisons and no admin approval. -/
def nineUser : User :=
  { id := 1, username := "alice", ip_address := "1.1.1.1",
    is_admin_approved := false, created_at := 0 }

/-- An admin-approved user. -/
def approvedUser : User :=
  { id := 2, username := "bob", ip_address := "2.2.2.2",
    is_admin_approved := true, created_at := 0 }

/-- A store with nine comparisons, all authored by `nineUser`. -/
def nineDb : DB :=
  { DB.empty with
    users := [nineUser, approvedUser],
    comparisons := (List.range 9).map (fun i =>
      { id := i + 1, user_id := 1, city_us_id := i + 1, city_tr_id := 101 + i,
        sim1 := "s", sim2 := "s", sim3 := "s", sim4 := "s", sim5 := "s",
        created_at := 0 }),
    nextUserId := 3, nextCompId := 10 }

/-- Witness for C2: with nine contributions and no approval, `/list`
redirects to the dashboard. -/
theorem list_view_access_gate_witness :
    nineDb.contribCount nineUser.id < 10 ∧ nineUser.is_admin_approved = false ∧
    (list_view nineDb nineUser none none).redirect = some "dashboard" :=
  ⟨by decide, by decide,
    (list_view_access_gate nineDb nineUser none none
        (by decide : ∀ c ∈ nineDb.comparisons, ∃ u ∈ nineDb.users, u.id = c.user_id)).1.mpr
      ⟨by decide, by decide⟩⟩

/-- C7: for a granted caller of `/list`, a supplied `filter_us` makes
every returned comparison carry that US city id; supplying both
parameters returns exactly the comparisons matching both city ids; with
neither parameter every stored comparison is returned. -/
theorem list_view_filter_params (db : DB) (user : User)
    (hfk : db.authorsExist)
    (hgrant : ¬(db.contribCount user.id < 10 ∧ user.is_admin_approved = false)) :
    (∀ (usId : Nat) (ftr : Option Nat),
      ∀ p ∈ (list_view db user (some usId) ftr).comparisons, p.1.city_us_id = usId) ∧
    (∀ usId trId : Nat,
      (list_view db user (some usId) (some trId)).comparisons.map Prod.fst =
        db.comparisons.filter (fun c => c.city_us_id == usId && c.city_tr_id == trId)) ∧
    ((list_view db user none none).comparisons.map Prod.fst = db.comparisons) := by
  refine ⟨?_, ?_, ?_⟩
  · intro usId ftr p hp
    rw [list_view_granted_form db user (some usId) ftr hgrant] at hp
    simp only [List.mem_filterMap] at hp
    obtain ⟨a, ha, hmap⟩ := hp
    rcases Option.map_eq_some'.mp hmap with ⟨n, hn, hpn⟩
    have hmem : a ∈ (listFilter db (some usId) ftr) := ha
    have hfa : (a.city_us_id == usId) = true := by
      rcases ftr with _ | trId
      · exact (List.mem_filter.mp hmem).2
      · exact (List.mem_filter.mp (List.mem_filter.mp hmem).1).2
    rw [← hpn]
    simpa using hfa
  · intro usId trId
    rw [list_view_granted_form db user (some usId) (some trId) hgrant]
    rw [filterMap_pair_fst (fun c hc => authorUsername_isSome hfk (listFilter_subset hc))]
    show (db.comparisons.filter (fun c => c.city_us_id == usId)).filter
        (fun c => c.city_tr_id == trId) = _
    rw [List.filter_filter]
    exact List.filter_congr (fun a _ => Bool.and_comm _ _)
  · rw [list_view_granted_form db user none none hgrant]
    exact filterMap_pair_fst (fun c hc => authorUsername_isSome hfk (listFilter_subset hc))

/-- Witness for C7: the admin-approved caller sees the full list with
no filters, and exactly the matching row under both filters. -/
theorem list_view_filter_params_witness :
    (list_view nineDb approvedUser none none).comparisons.map Prod.fst =
        nineDb.comparisons ∧
    (list_view nineDb approvedUser (some 3) (some 103)).comparisons.map Prod.fst =
        nineDb.comparisons.filter (fun c => c.city_us_id == 3 && c.city_tr_id == 103) :=
  ⟨(list_view_filter_params nineDb approvedUser
      (by decide : ∀ c ∈ nineDb.comparisons, ∃ u ∈ nineDb.users, u.id = c.user_id)
      (by decide)).2.2,
   (list_view_filter_params nineDb approvedUser
      (by decide : ∀ c ∈ nineDb.comparisons, ∃ u ∈ nineDb.users, u.id = c.user_id)
      (by decide)).2.1 3 103⟩

/-- The User row the login handler creates on first login
(`User(username=username, ip_address=user_ip)` plus defaults). -/
def loginNewUser (db : DB) (u ip : String) (now : Nat) : User :=
  { id := db.nextUserId, username := pyStrip u, ip_address := ip,
    is_admin_approved := false, created_at := now }

/-- Reduction of the login handler when no user carries the trimmed
username: a fresh User row is appended. -/
theorem login_notfound_eq (db : DB) (u ip : String) (now : Nat)
    (htrim : pyStrip u ≠ "")
    (hf : db.users.find? (fun v => v.username == pyStrip u) = none) :
    login db u ip now =
      { db := { db with
                  users := db.users ++ [loginNewUser db u ip now],
                  nextUserId := db.nextUserId + 1 },
        flash := none, sessionUserId := some db.nextUserId, redirect := "dashboard" } := by
  simp [login, htrim, hf, loginNewUser]

/-- Reduction of the login handler when a user already carries the
trimmed username: only that row's IP address is overwritten. -/
theorem login_found_eq (db : DB) (u ip : String) (now : Nat) {w : User}
    (htrim : pyStrip u ≠ "")
    (hf : db.users.find? (fun v => v.username == pyStrip u) = some w) :
    login db u ip now =
      { db := { db with
                  users := db.users.map (fun v =>
                    if v.id == w.id then { w with ip_address := ip } else v) },
        flash := none, sessionUserId := some w.id, redirect := "dashboard" } := by
  simp [login, htrim, hf]

/-- C5 (amended): for every submitted username whose whitespace-trimmed
form is non-empty, logging in twice yields the same User identifier both
times, creates no second User record, and the second login rewrites only
the stored IP address of that one User row — username, admin-approval
flag and creation timestamp of every row are untouched, as are the other
tables. -/
theorem login_twice_only_updates_ip (db : DB) (u ip1 ip2 : String) (now1 now2 : Nat)
    (htrim : pyStrip u ≠ "") (hids : db.userIdsUnique) (hfresh : db.userIdFresh) :
    ∃ uid : Nat,
      (login db u ip1 now1).sessionUserId = some uid ∧
      (login (login db u ip1 now1).db u ip2 now2).sessionUserId = some uid ∧
      (login (login db u ip1 now1).db u ip2 now2).db.users.length
        = (login db u ip1 now1).db.users.length ∧
      (login (login db u ip1 now1).db u ip2 now2).db =
        { (login db u ip1 now1).db with
          users := (login db u ip1 now1).db.users.map
            (fun v => if v.id = uid then { v with ip_address := ip2 } else v) } := by
  cases hf : db.users.find? (fun v => v.username == pyStrip u) with
  | none =>
      have h1 := login_notfound_eq db u ip1 now1 htrim hf
      rw [h1]
      have hf2 : ((db.users ++ [loginNewUser db u ip1 now1]).find?
            (fun v => v.username == pyStrip u)) = some (loginNewUser db u ip1 now1) := by
        rw [List.find?_append, hf]
        simp [loginNewUser]
      have h2 := login_found_eq
        { db with
          users := db.users ++ [loginNewUser db u ip1 now1],
          nextUserId := db.nextUserId + 1 }
        u ip2 now2 htrim hf2
      rw [h2]
      refine ⟨db.nextUserId, rfl, rfl, by simp, ?_⟩
      show (DB.mk _ _ _ _ _ _) = (DB.mk _ _ _ _ _ _)
      congr 1
      · apply List.map_congr_left
        intro v hv
        rcases List.mem_append.mp hv with hv1 | hv2
        · have hlt : v.id ≠ db.nextUserId := Nat.ne_of_lt (hfresh v hv1)
          have hbeq : (v.id == (loginNewUser db u ip1 now1).id) = false := by
            simp [loginNewUser, hlt]
          simp [hbeq, hlt]
        · have hveq : v = loginNewUser db u ip1 now1 := by simpa using hv2
          subst hveq
          simp [loginNewUser]
  | some w =>
      have hwmem : w ∈ db.users := List.mem_of_find?_eq_some hf
      have h1 := login_found_eq db u ip1 now1 htrim hf
      rw [h1]
      have hp : ∀ x ∈ db.users,
          ((if x.id == w.id then { w with ip_address := ip1 } else x).username == pyStrip u)
            = (x.username == pyStrip u) := by
        intro x hx
        by_cases hxw : (x.id == w.id) = true
        · have hxid : x.id = w.id := by simpa using hxw
          have hxweq : x = w := pairwise_key_inj hids x hx w hwmem hxid
          subst hxweq
          simp
        · have hxw2 : (x.id == w.id) = false := by simpa using hxw
          simp [hxw2]
      have hf2 := find?_map_pres hf hp
      have hfw : (if w.id == w.id then { w with ip_address := ip1 } else w)
          = { w with ip_address := ip1 } := by simp
      rw [hfw] at hf2
      have h2 := login_found_eq
        { db with
          users := db.users.map (fun v =>
            if v.id == w.id then { w with ip_address := ip1 } else v) }
        u ip2 now2 htrim hf2
      rw [h2]
      refine ⟨w.id, rfl, rfl, by simp, ?_⟩
      show (DB.mk _ _ _ _ _ _) = (DB.mk _ _ _ _ _ _)
      congr 1
      apply List.map_congr_left
      intro v hv
      obtain ⟨x, hx, rfl⟩ := List.mem_map.mp hv
      by_cases hxw : (x.id == w.id) = true
      · have hxid : x.id = w.id := by simpa using hxw
        have hxweq : x = w := pairwise_key_inj hids x hx w hwmem hxid
        subst hxweq
        simp
      · have hxw2 : (x.id == w.id) = false := by simpa using hxw
        have hxne : x.id ≠ w.id := by simpa using hxw2
        simp [hxw2, hxne]

/-- C5 counterexample: the username " " is non-empty as submitted, yet
logging in with it twice never yields a User identifier and creates no
User record at all, because the handler trims it to the empty string and
rejects it — so the claim over every non-empty username fails. -/
theorem login_twice_nonempty_counterexample :
    (" " : String) ≠ "" ∧
    (login DB.empty " " "7.7.7.7" 0).sessionUserId = none ∧
    (login (login DB.empty " " "7.7.7.7" 0).db " " "8.8.8.8" 1).sessionUserId = none ∧
    (login (login DB.empty " " "7.7.7.7" 0).db " " "8.8.8.8" 1).db.users = [] :=
  ⟨by decide, rfl, rfl, rfl⟩

/-- Witness for the amended C5 at the concrete username " alice " on
the empty store. -/
theorem login_twice_only_updates_ip_witness :
    pyStrip " alice " ≠ "" ∧
    (∃ uid : Nat,
      (login DB.empty " alice " "1.1.1.1" 0).sessionUserId = some uid ∧
      (login (login DB.empty " alice " "1.1.1.1" 0).db " alice " "2.2.2.2" 1).sessionUserId
        = some uid ∧
      (login (login DB.empty " alice " "1.1.1.1" 0).db " alice " "2.2.2.2" 1).db.users.length
        = (login DB.empty " alice " "1.1.1.1" 0).db.users.length ∧
      (login (login DB.empty " alice " "1.1.1.1" 0).db " alice " "2.2.2.2" 1).db =
        { (login DB.empty " alice " "1.1.1.1" 0).db with
          users := (login DB.empty " alice " "1.1.1.1" 0).db.users.map
            (fun v => if v.id = uid then { v with ip_address := "2.2.2.2" } else v) }) :=
  ⟨by decide,
    login_twice_only_updates_ip DB.empty " alice " "1.1.1.1" "2.2.2.2" 0 1
      (by decide) List.Pairwise.nil (fun v hv => absurd hv (List.not_mem_nil v))⟩
